import Mathlib

/-!
Shallow embedding of the PCA9685 PWM-controller driver
(`src/pca9685lib.c`) and proofs of its specified properties.

The C source is translated function by function.  Machine integers are
modelled as `Nat` with explicit `% 2^w` truncation where the C code
performs an integer conversion; fallible calls return an `Int` status
code exactly as the C functions do.  The two-wire bus transport
(an external collaborator of the driver) is modelled as an explicit
state: a register file, a fault schedule, a call counter and a trace of
the transport calls issued.
-/

namespace PCA9685

/-- Modelled from the spec: the missing header `pca9685lib.h` defines the
generic success result returned by every library call. -/
def PCA9685LIB_SUCCESS : Int := 0

/-- Modelled from the spec: the missing header `pca9685lib.h` defines the
generic error result (a single collapsed failure code). -/
def PCA9685LIB_ERROR : Int := -1

/-- Modelled from the spec: success code of the external `us-i2c`
transport, against which the driver compares transport results. -/
def US_I2C_SUCCESS : Int := 0

/-- Modelled from the spec: transport failure code of `us-i2c`. -/
def US_I2C_ERROR : Int := -1

/-- Modelled from the spec: MODE1 register address from the missing
header (the PCA9685 register map places MODE1 at 0x00). -/
def PCA9685_MODE1_REG_ADDR : Nat := 0x00

/-- Modelled from the spec: MODE2 register address (0x01). -/
def PCA9685_MODE2_REG_ADDR : Nat := 0x01

/-- Modelled from the spec: LED0 ON low-byte register address (0x06),
base of the per-channel 4-register stride. -/
def PCA9685_LED0_ON_L_REG_ADDR : Nat := 0x06

/-- Modelled from the spec: LED0 ON high-byte register address (0x07). -/
def PCA9685_LED0_ON_H_REG_ADDR : Nat := 0x07

/-- Modelled from the spec: LED0 OFF low-byte register address (0x08). -/
def PCA9685_LED0_OFF_L_REG_ADDR : Nat := 0x08

/-- Modelled from the spec: LED0 OFF high-byte register address (0x09). -/
def PCA9685_LED0_OFF_H_REG_ADDR : Nat := 0x09

/-- Modelled from the spec: LED15 OFF high-byte register address, the
last per-channel register (0x06 + 15*4 + 3 = 0x45). -/
def PCA9685_LED15_OFF_H_REG_ADDR : Nat := 0x45

/-- Modelled from the spec: ALL-LED ON low-byte register address (0xFA),
first register after the forbidden/reserved gap. -/
def PCA9685_ALL_LED_ON_L_REG_ADDR : Nat := 0xFA

/-- Modelled from the spec: ALL-LED ON high-byte register address (0xFB). -/
def PCA9685_ALL_LED_ON_H_REG_ADDR : Nat := 0xFB

/-- Modelled from the spec: ALL-LED OFF low-byte register address (0xFC). -/
def PCA9685_ALL_LED_OFF_L_REG_ADDR : Nat := 0xFC

/-- Modelled from the spec: ALL-LED OFF high-byte register address (0xFD). -/
def PCA9685_ALL_LED_OFF_H_REG_ADDR : Nat := 0xFD

/-- Modelled from the spec: prescaler register address (0xFE). -/
def PCA9685_PRE_SCALE_REG_ADDR : Nat := 0xFE

/-- Modelled from the spec: test-mode register address (0xFF), also
forbidden by the validation guard. -/
def PCA9685_TEST_MODE_REG_ADDR : Nat := 0xFF

/-- Modelled from the spec: maximum channel index (15) from the missing
header; the driver rejects `channel > PCA9685_MAX_PWM_CHANNELS`. -/
def PCA9685_MAX_PWM_CHANNELS : Nat := 15

/-- Modelled from the spec: maximum 12-bit PWM value (4095). -/
def PCA9685_MAX_PWM_VALUE : Nat := 4095

/-- Modelled from the spec: minimum legal prescaler value (3); lower
inputs are clamped up to it. -/
def PCA9685_MIN_PRESCALER : Nat := 3

/-- One transport call, as recorded in the bus trace: an addressed
single-byte read or write. -/
inductive BusOp where
  | read (devAddr reg : Nat)
  | write (devAddr reg data : Nat)
deriving DecidableEq, Repr

/-- Model of the external two-wire bus transport the driver drives:
a register file `mem`, a fault schedule `failAt` (whether the n-th
transport call fails), the number of calls issued so far, and the trace
of calls issued. -/
structure BusState where
  mem : Nat → Nat
  failAt : Nat → Bool
  count : Nat
  trace : List BusOp

/-- Register-file update produced by a successful byte write. -/
def memUpd (mem : Nat → Nat) (reg data : Nat) : Nat → Nat :=
  fun r => if r = reg then data else mem r

/-- Modelled from the spec: the external `i2cWrite` of `us-i2c`
(one addressed single-byte write). On success it persists the byte;
either way the call is counted and traced. -/
def i2cWrite (bus : BusState) (devAddr reg data : Nat) : Int × BusState :=
  if bus.failAt bus.count then
    (US_I2C_ERROR,
      { mem := bus.mem, failAt := bus.failAt, count := bus.count + 1,
        trace := bus.trace ++ [BusOp.write devAddr reg data] })
  else
    (US_I2C_SUCCESS,
      { mem := memUpd bus.mem reg data, failAt := bus.failAt,
        count := bus.count + 1,
        trace := bus.trace ++ [BusOp.write devAddr reg data] })

/-- Modelled from the spec: the external `i2cRead` of `us-i2c`
(one addressed single-byte read). `dataIn` is the current content of
the caller's output variable, which a failing read leaves unchanged. -/
def i2cRead (bus : BusState) (devAddr reg dataIn : Nat) : Int × Nat × BusState :=
  if bus.failAt bus.count then
    (US_I2C_ERROR, dataIn,
      { mem := bus.mem, failAt := bus.failAt, count := bus.count + 1,
        trace := bus.trace ++ [BusOp.read devAddr reg] })
  else
    (US_I2C_SUCCESS, bus.mem reg,
      { mem := bus.mem, failAt := bus.failAt, count := bus.count + 1,
        trace := bus.trace ++ [BusOp.read devAddr reg] })

/-- The controller handle (`PCA9685I2CConf_t`): stored 7-bit device bus
address. The transport channel itself is the explicit `BusState`. -/
structure PCA9685I2CConf where
  i2cAddr : Nat

/-- Translation of `PCA9685WriteReg` (pca9685lib.c:50): validates that `reg` is not in
the forbidden region, then issues one transport write.  `reg` and
`data` are `uint8_t` parameters, hence the `% 256`. -/
def PCA9685WriteReg (conf : PCA9685I2CConf) (bus : BusState)
    (reg0 data0 : Nat) : Int × BusState :=
  let reg := reg0 % 256
  let data := data0 % 256
  if (PCA9685_LED15_OFF_H_REG_ADDR < reg ∧ reg < PCA9685_ALL_LED_ON_L_REG_ADDR)
      ∨ reg = PCA9685_TEST_MODE_REG_ADDR then
    (PCA9685LIB_ERROR, bus)
  else
    let res := i2cWrite bus conf.i2cAddr reg data
    if res.1 ≠ US_I2C_SUCCESS then
      (PCA9685LIB_ERROR, res.2)
    else
      (PCA9685LIB_SUCCESS, res.2)

/-- Translation of `PCA9685ReadReg` (pca9685lib.c:85): same forbidden-region guard,
then one transport read.  `dataIn` is the content of the caller's
output byte before the call; the returned `Nat` is its content after. -/
def PCA9685ReadReg (conf : PCA9685I2CConf) (bus : BusState)
    (reg0 dataIn : Nat) : Int × Nat × BusState :=
  let reg := reg0 % 256
  if (PCA9685_LED15_OFF_H_REG_ADDR < reg ∧ reg < PCA9685_ALL_LED_ON_L_REG_ADDR)
      ∨ reg = PCA9685_TEST_MODE_REG_ADDR then
    (PCA9685LIB_ERROR, dataIn, bus)
  else
    let res := i2cRead bus conf.i2cAddr reg dataIn
    if res.1 ≠ US_I2C_SUCCESS then
      (PCA9685LIB_ERROR, res.2.1, res.2.2)
    else
      (PCA9685LIB_SUCCESS, res.2.1, res.2.2)

/-- Modelled from the spec: the external `i2cInit` of `us-i2c` opens the
bus channel for a device number; the driver only checks its status. The
model's open always succeeds and yields a fresh transport channel. -/
def i2cInit (i2cDevNumber : Nat) : Int × Nat :=
  (US_I2C_SUCCESS, i2cDevNumber)

/-- Translation of `PCA9685_Init` (pca9685lib.c:114): opens the transport channel and
stores the device address in the controller handle. -/
def PCA9685_Init (i2cAddress i2cDevNumber : Nat) : Int × PCA9685I2CConf :=
  let res := i2cInit i2cDevNumber
  if res.1 ≠ US_I2C_SUCCESS then
    (PCA9685LIB_ERROR, { i2cAddr := 0 })
  else
    (PCA9685LIB_SUCCESS, { i2cAddr := i2cAddress })

/-- Modelled from the spec: the Mode1 `restart` bit of the missing
header's `PCA9685Mode1Reg_u` bitfield; the assignment
`bitfield.restart = 1` sets the restart bit (bit 7 in the PCA9685
Mode1 layout) and leaves the other bits of the byte alone. -/
def mode1SetRestart (m : Nat) : Nat := m ||| 0x80

/-- Modelled from the spec: `bitfield.sleep = 1` on `PCA9685Mode1Reg_u`
sets the sleep bit (bit 4 in the PCA9685 Mode1 layout). -/
def mode1SetSleep (m : Nat) : Nat := m ||| 0x10

/-- Modelled from the spec: `bitfield.sleep = 0` clears the sleep bit. -/
def mode1ClearSleep (m : Nat) : Nat := m &&& 0xEF

/-- Modelled from the spec: assignment to the two-bit `outne` field of
`PCA9685Mode2Reg_u` (bits 0-1 of Mode2), truncating the value to the
field width and leaving the other bits alone. -/
def mode2SetOutne (m v : Nat) : Nat := (m &&& 0xFC) ||| (v &&& 0x3)

/-- Modelled from the spec: assignment to the one-bit `invrt` field of
`PCA9685Mode2Reg_u` (bit 4 of Mode2). -/
def mode2SetInvrt (m v : Nat) : Nat := (m &&& 0xEF) ||| ((v &&& 0x1) <<< 4)

/-- Translation of `PCA9685_GetMode1Reg` (pca9685lib.c:137): one register read of
MODE1. `regIn` is the caller's output byte before the call. -/
def PCA9685_GetMode1Reg (conf : PCA9685I2CConf) (bus : BusState)
    (regIn : Nat) : Int × Nat × BusState :=
  let res := PCA9685ReadReg conf bus PCA9685_MODE1_REG_ADDR regIn
  if res.1 ≠ PCA9685LIB_SUCCESS then
    (PCA9685LIB_ERROR, res.2.1, res.2.2)
  else
    (PCA9685LIB_SUCCESS, res.2.1, res.2.2)

/-- Translation of `PCA9685_SetMode1Reg` (pca9685lib.c:155): one register write of
MODE1. -/
def PCA9685_SetMode1Reg (conf : PCA9685I2CConf) (bus : BusState)
    (modeReg : Nat) : Int × BusState :=
  let res := PCA9685WriteReg conf bus PCA9685_MODE1_REG_ADDR modeReg
  if res.1 ≠ PCA9685LIB_SUCCESS then
    (PCA9685LIB_ERROR, res.2)
  else
    (PCA9685LIB_SUCCESS, res.2)

/-- Translation of `PCA9685_GetMode2Reg` (pca9685lib.c:173): one register read of
MODE2. -/
def PCA9685_GetMode2Reg (conf : PCA9685I2CConf) (bus : BusState)
    (regIn : Nat) : Int × Nat × BusState :=
  let res := PCA9685ReadReg conf bus PCA9685_MODE2_REG_ADDR regIn
  if res.1 ≠ PCA9685LIB_SUCCESS then
    (PCA9685LIB_ERROR, res.2.1, res.2.2)
  else
    (PCA9685LIB_SUCCESS, res.2.1, res.2.2)

/-- Translation of `PCA9685_SetMode2Reg` (pca9685lib.c:191): one register write of
MODE2. -/
def PCA9685_SetMode2Reg (conf : PCA9685I2CConf) (bus : BusState)
    (modeReg : Nat) : Int × BusState :=
  let res := PCA9685WriteReg conf bus PCA9685_MODE2_REG_ADDR modeReg
  if res.1 ≠ PCA9685LIB_SUCCESS then
    (PCA9685LIB_ERROR, res.2)
  else
    (PCA9685LIB_SUCCESS, res.2)

/-- Translation of `PCA9685_GetPrescaler` (pca9685lib.c:209): one register read of
PRE_SCALE. -/
def PCA9685_GetPrescaler (conf : PCA9685I2CConf) (bus : BusState)
    (prescaleIn : Nat) : Int × Nat × BusState :=
  let res := PCA9685ReadReg conf bus PCA9685_PRE_SCALE_REG_ADDR prescaleIn
  if res.1 ≠ PCA9685LIB_SUCCESS then
    (PCA9685LIB_ERROR, res.2.1, res.2.2)
  else
    (PCA9685LIB_SUCCESS, res.2.1, res.2.2)

/-- Translation of `PCA9685_SetPrescaler` (pca9685lib.c:227): clamps the input up to
`PCA9685_MIN_PRESCALER`, then writes the PRE_SCALE register. -/
def PCA9685_SetPrescaler (conf : PCA9685I2CConf) (bus : BusState)
    (prescale0 : Nat) : Int × BusState :=
  let prescale :=
    if prescale0 < PCA9685_MIN_PRESCALER then PCA9685_MIN_PRESCALER
    else prescale0
  let res := PCA9685WriteReg conf bus PCA9685_PRE_SCALE_REG_ADDR prescale
  if res.1 ≠ PCA9685LIB_SUCCESS then
    (PCA9685LIB_ERROR, res.2)
  else
    (PCA9685LIB_SUCCESS, res.2)

/-- Translation of `PCA9685_GetPWM` (pca9685lib.c:250): validates the channel index,
then reads the channel's four registers (ON-L, ON-H, OFF-L, OFF-H) and
reassembles the two 16-bit values.  `onIn`/`offIn` are the contents of
the caller's `*onValue`/`*offValue` before the call; the two returned
`Nat`s are their contents after (a failing path leaves a destination
unchanged once not yet assigned). -/
def PCA9685_GetPWM (conf : PCA9685I2CConf) (bus : BusState)
    (channel onIn offIn : Nat) : Int × Nat × Nat × BusState :=
  if channel > PCA9685_MAX_PWM_CHANNELS then
    (PCA9685LIB_ERROR, onIn, offIn, bus)
  else
    let r1 := PCA9685ReadReg conf bus
      (PCA9685_LED0_ON_L_REG_ADDR + channel * 4) 0
    if r1.1 ≠ PCA9685LIB_SUCCESS then
      (PCA9685LIB_ERROR, onIn, offIn, r1.2.2)
    else
      let r2 := PCA9685ReadReg conf r1.2.2
        (PCA9685_LED0_ON_H_REG_ADDR + channel * 4) 0
      if r2.1 ≠ PCA9685LIB_SUCCESS then
        (PCA9685LIB_ERROR, onIn, offIn, r2.2.2)
      else
        let onOut := ((r2.2.1 <<< 8) ||| r1.2.1) % 65536
        let r3 := PCA9685ReadReg conf r2.2.2
          (PCA9685_LED0_OFF_L_REG_ADDR + channel * 4) r1.2.1
        if r3.1 ≠ PCA9685LIB_SUCCESS then
          (PCA9685LIB_ERROR, onOut, offIn, r3.2.2)
        else
          let r4 := PCA9685ReadReg conf r3.2.2
            (PCA9685_LED0_OFF_H_REG_ADDR + channel * 4) r2.2.1
          if r4.1 ≠ PCA9685LIB_SUCCESS then
            (PCA9685LIB_ERROR, onOut, offIn, r4.2.2)
          else
            let offOut := ((r4.2.1 <<< 8) ||| r3.2.1) % 65536
            (PCA9685LIB_SUCCESS, onOut, offOut, r4.2.2)

/-- Translation of `PCA9685_SetPWM` (pca9685lib.c:301): validates the channel index and
both 12-bit values, then writes the four channel registers in order
ON-L, ON-H, OFF-L, OFF-H, splitting each value into low and high byte. -/
def PCA9685_SetPWM (conf : PCA9685I2CConf) (bus : BusState)
    (channel onValue offValue : Nat) : Int × BusState :=
  if channel > PCA9685_MAX_PWM_CHANNELS then
    (PCA9685LIB_ERROR, bus)
  else if onValue > PCA9685_MAX_PWM_VALUE ∨ offValue > PCA9685_MAX_PWM_VALUE then
    (PCA9685LIB_ERROR, bus)
  else
    let w1 := PCA9685WriteReg conf bus
      (PCA9685_LED0_ON_L_REG_ADDR + channel * 4) (onValue % 256)
    if w1.1 ≠ PCA9685LIB_SUCCESS then
      (PCA9685LIB_ERROR, w1.2)
    else
      let w2 := PCA9685WriteReg conf w1.2
        (PCA9685_LED0_ON_H_REG_ADDR + channel * 4) ((onValue >>> 8) % 256)
      if w2.1 ≠ PCA9685LIB_SUCCESS then
        (PCA9685LIB_ERROR, w2.2)
      else
        let w3 := PCA9685WriteReg conf w2.2
          (PCA9685_LED0_OFF_L_REG_ADDR + channel * 4) (offValue % 256)
        if w3.1 ≠ PCA9685LIB_SUCCESS then
          (PCA9685LIB_ERROR, w3.2)
        else
          let w4 := PCA9685WriteReg conf w3.2
            (PCA9685_LED0_OFF_H_REG_ADDR + channel * 4) ((offValue >>> 8) % 256)
          if w4.1 ≠ PCA9685LIB_SUCCESS then
            (PCA9685LIB_ERROR, w4.2)
          else
            (PCA9685LIB_SUCCESS, w4.2)

/-- Translation of `PCA9685_GetAllPWM` (pca9685lib.c:350): reads the four ALL-LED
registers and reassembles the two 16-bit values. -/
def PCA9685_GetAllPWM (conf : PCA9685I2CConf) (bus : BusState)
    (onIn offIn : Nat) : Int × Nat × Nat × BusState :=
  let r1 := PCA9685ReadReg conf bus PCA9685_ALL_LED_ON_L_REG_ADDR 0
  if r1.1 ≠ PCA9685LIB_SUCCESS then
    (PCA9685LIB_ERROR, onIn, offIn, r1.2.2)
  else
    let r2 := PCA9685ReadReg conf r1.2.2 PCA9685_ALL_LED_ON_H_REG_ADDR 0
    if r2.1 ≠ PCA9685LIB_SUCCESS then
      (PCA9685LIB_ERROR, onIn, offIn, r2.2.2)
    else
      let onOut := ((r2.2.1 <<< 8) ||| r1.2.1) % 65536
      let r3 := PCA9685ReadReg conf r2.2.2 PCA9685_ALL_LED_OFF_L_REG_ADDR r1.2.1
      if r3.1 ≠ PCA9685LIB_SUCCESS then
        (PCA9685LIB_ERROR, onOut, offIn, r3.2.2)
      else
        let r4 := PCA9685ReadReg conf r3.2.2 PCA9685_ALL_LED_OFF_H_REG_ADDR r2.2.1
        if r4.1 ≠ PCA9685LIB_SUCCESS then
          (PCA9685LIB_ERROR, onOut, offIn, r4.2.2)
        else
          let offOut := ((r4.2.1 <<< 8) ||| r3.2.1) % 65536
          (PCA9685LIB_SUCCESS, onOut, offOut, r4.2.2)

/-- Translation of `PCA9685_SetAllPWM` (pca9685lib.c:395): validates both 12-bit
values, then writes the four ALL-LED registers in order. -/
def PCA9685_SetAllPWM (conf : PCA9685I2CConf) (bus : BusState)
    (onValue offValue : Nat) : Int × BusState :=
  if onValue > PCA9685_MAX_PWM_VALUE ∨ offValue > PCA9685_MAX_PWM_VALUE then
    (PCA9685LIB_ERROR, bus)
  else
    let w1 := PCA9685WriteReg conf bus PCA9685_ALL_LED_ON_L_REG_ADDR (onValue % 256)
    if w1.1 ≠ PCA9685LIB_SUCCESS then
      (PCA9685LIB_ERROR, w1.2)
    else
      let w2 := PCA9685WriteReg conf w1.2 PCA9685_ALL_LED_ON_H_REG_ADDR
        ((onValue >>> 8) % 256)
      if w2.1 ≠ PCA9685LIB_SUCCESS then
        (PCA9685LIB_ERROR, w2.2)
      else
        let w3 := PCA9685WriteReg conf w2.2 PCA9685_ALL_LED_OFF_L_REG_ADDR
          (offValue % 256)
        if w3.1 ≠ PCA9685LIB_SUCCESS then
          (PCA9685LIB_ERROR, w3.2)
        else
          let w4 := PCA9685WriteReg conf w3.2 PCA9685_ALL_LED_OFF_H_REG_ADDR
            ((offValue >>> 8) % 256)
          if w4.1 ≠ PCA9685LIB_SUCCESS then
            (PCA9685LIB_ERROR, w4.2)
          else
            (PCA9685LIB_SUCCESS, w4.2)

/-- Translation of `PCA9685_Reset` (pca9685lib.c:439): reads MODE1, sets the restart
bit, writes the modified byte back to MODE1. -/
def PCA9685_Reset (conf : PCA9685I2CConf) (bus : BusState) : Int × BusState :=
  let r := PCA9685ReadReg conf bus PCA9685_MODE1_REG_ADDR 0
  if r.1 ≠ PCA9685LIB_SUCCESS then
    (PCA9685LIB_ERROR, r.2.2)
  else
    let w := PCA9685WriteReg conf r.2.2 PCA9685_MODE1_REG_ADDR
      (mode1SetRestart r.2.1)
    if w.1 ≠ PCA9685LIB_SUCCESS then
      (PCA9685LIB_ERROR, w.2)
    else
      (PCA9685LIB_SUCCESS, w.2)

/-- Translation of `PCA9685_Sleep` (pca9685lib.c:467): reads MODE1, sets the sleep bit,
writes the modified byte back to MODE1. -/
def PCA9685_Sleep (conf : PCA9685I2CConf) (bus : BusState) : Int × BusState :=
  let r := PCA9685ReadReg conf bus PCA9685_MODE1_REG_ADDR 0
  if r.1 ≠ PCA9685LIB_SUCCESS then
    (PCA9685LIB_ERROR, r.2.2)
  else
    let w := PCA9685WriteReg conf r.2.2 PCA9685_MODE1_REG_ADDR
      (mode1SetSleep r.2.1)
    if w.1 ≠ PCA9685LIB_SUCCESS then
      (PCA9685LIB_ERROR, w.2)
    else
      (PCA9685LIB_SUCCESS, w.2)

/-- Translation of `PCA9685_WakeUp` (pca9685lib.c:495): reads MODE1, clears the sleep
bit, writes the modified byte back to MODE1. -/
def PCA9685_WakeUp (conf : PCA9685I2CConf) (bus : BusState) : Int × BusState :=
  let r := PCA9685ReadReg conf bus PCA9685_MODE1_REG_ADDR 0
  if r.1 ≠ PCA9685LIB_SUCCESS then
    (PCA9685LIB_ERROR, r.2.2)
  else
    let w := PCA9685WriteReg conf r.2.2 PCA9685_MODE1_REG_ADDR
      (mode1ClearSleep r.2.1)
    if w.1 ≠ PCA9685LIB_SUCCESS then
      (PCA9685LIB_ERROR, w.2)
    else
      (PCA9685LIB_SUCCESS, w.2)

/-- Translation of `PCA9685_EnableOutput` (pca9685lib.c:523): reads MODE2, clears the
`outne` field, then writes the modified byte back — the source writes
it to `PCA9685_MODE1_REG_ADDR` (line 543). -/
def PCA9685_EnableOutput (conf : PCA9685I2CConf) (bus : BusState) :
    Int × BusState :=
  let r := PCA9685ReadReg conf bus PCA9685_MODE2_REG_ADDR 0
  if r.1 ≠ PCA9685LIB_SUCCESS then
    (PCA9685LIB_ERROR, r.2.2)
  else
    let w := PCA9685WriteReg conf r.2.2 PCA9685_MODE1_REG_ADDR
      (mode2SetOutne r.2.1 0)
    if w.1 ≠ PCA9685LIB_SUCCESS then
      (PCA9685LIB_ERROR, w.2)
    else
      (PCA9685LIB_SUCCESS, w.2)

/-- Translation of `PCA9685_DisableOutput` (pca9685lib.c:551): reads MODE2, sets the
`outne` field to 3, then writes the modified byte back — the source
writes it to `PCA9685_MODE1_REG_ADDR` (line 571). -/
def PCA9685_DisableOutput (conf : PCA9685I2CConf) (bus : BusState) :
    Int × BusState :=
  let r := PCA9685ReadReg conf bus PCA9685_MODE2_REG_ADDR 0
  if r.1 ≠ PCA9685LIB_SUCCESS then
    (PCA9685LIB_ERROR, r.2.2)
  else
    let w := PCA9685WriteReg conf r.2.2 PCA9685_MODE1_REG_ADDR
      (mode2SetOutne r.2.1 3)
    if w.1 ≠ PCA9685LIB_SUCCESS then
      (PCA9685LIB_ERROR, w.2)
    else
      (PCA9685LIB_SUCCESS, w.2)

/-- Translation of `PCA9685_SetOutputInversion` (pca9685lib.c:579): reads MODE2, sets
the `invrt` field to the caller's value, then writes the modified byte
back — the source writes it to `PCA9685_MODE1_REG_ADDR` (line 599). -/
def PCA9685_SetOutputInversion (conf : PCA9685I2CConf) (bus : BusState)
    (invrt : Nat) : Int × BusState :=
  let r := PCA9685ReadReg conf bus PCA9685_MODE2_REG_ADDR 0
  if r.1 ≠ PCA9685LIB_SUCCESS then
    (PCA9685LIB_ERROR, r.2.2)
  else
    let w := PCA9685WriteReg conf r.2.2 PCA9685_MODE1_REG_ADDR
      (mode2SetInvrt r.2.1 invrt)
    if w.1 ≠ PCA9685LIB_SUCCESS then
      (PCA9685LIB_ERROR, w.2)
    else
      (PCA9685LIB_SUCCESS, w.2)

/-- A transport in its initial state: all registers zero, no scheduled
fault, no calls issued yet. -/
def bus0 : BusState :=
  { mem := fun _ => 0, failAt := fun _ => false, count := 0, trace := [] }

/-- A never-failing transport over a given register file. -/
def busOk (mem : Nat → Nat) : BusState :=
  { mem := mem, failAt := fun _ => false, count := 0, trace := [] }

/-! ### Helper lemmas about the register-access layer -/

theorem memUpd_same (mem : Nat → Nat) (reg data : Nat) :
    memUpd mem reg data reg = data := by
  simp [memUpd]

theorem memUpd_ne (mem : Nat → Nat) (reg data r : Nat) (h : r ≠ reg) :
    memUpd mem reg data r = mem r := by
  simp [memUpd, h]

theorem writeReg_ok (conf : PCA9685I2CConf) (bus : BusState) (reg data : Nat)
    (hr : reg < 256)
    (hallow : ¬((PCA9685_LED15_OFF_H_REG_ADDR < reg ∧
        reg < PCA9685_ALL_LED_ON_L_REG_ADDR) ∨
        reg = PCA9685_TEST_MODE_REG_ADDR))
    (hf : bus.failAt bus.count = false) :
    PCA9685WriteReg conf bus reg data =
      (PCA9685LIB_SUCCESS,
        { mem := memUpd bus.mem reg (data % 256), failAt := bus.failAt,
          count := bus.count + 1,
          trace := bus.trace ++ [BusOp.write conf.i2cAddr reg (data % 256)] }) := by
  unfold PCA9685WriteReg i2cWrite
  rw [Nat.mod_eq_of_lt hr]
  rw [if_neg hallow]
  simp [hf, US_I2C_SUCCESS, PCA9685LIB_SUCCESS]

theorem writeReg_fail (conf : PCA9685I2CConf) (bus : BusState) (reg data : Nat)
    (hr : reg < 256)
    (hallow : ¬((PCA9685_LED15_OFF_H_REG_ADDR < reg ∧
        reg < PCA9685_ALL_LED_ON_L_REG_ADDR) ∨
        reg = PCA9685_TEST_MODE_REG_ADDR))
    (hf : bus.failAt bus.count = true) :
    PCA9685WriteReg conf bus reg data =
      (PCA9685LIB_ERROR,
        { mem := bus.mem, failAt := bus.failAt, count := bus.count + 1,
          trace := bus.trace ++ [BusOp.write conf.i2cAddr reg (data % 256)] }) := by
  unfold PCA9685WriteReg i2cWrite
  rw [Nat.mod_eq_of_lt hr]
  rw [if_neg hallow]
  simp [hf, US_I2C_SUCCESS, US_I2C_ERROR, PCA9685LIB_ERROR]

theorem writeReg_forbidden (conf : PCA9685I2CConf) (bus : BusState)
    (reg data : Nat)
    (hforb : (PCA9685_LED15_OFF_H_REG_ADDR < reg ∧
        reg < PCA9685_ALL_LED_ON_L_REG_ADDR) ∨
        reg = PCA9685_TEST_MODE_REG_ADDR) :
    PCA9685WriteReg conf bus reg data = (PCA9685LIB_ERROR, bus) := by
  have hr : reg < 256 := by
    rcases hforb with ⟨_, h⟩ | h
    · simp only [PCA9685_ALL_LED_ON_L_REG_ADDR] at h; omega
    · simp only [PCA9685_TEST_MODE_REG_ADDR] at h; omega
  unfold PCA9685WriteReg
  rw [Nat.mod_eq_of_lt hr]
  rw [if_pos hforb]

theorem readReg_ok (conf : PCA9685I2CConf) (bus : BusState) (reg dataIn : Nat)
    (hr : reg < 256)
    (hallow : ¬((PCA9685_LED15_OFF_H_REG_ADDR < reg ∧
        reg < PCA9685_ALL_LED_ON_L_REG_ADDR) ∨
        reg = PCA9685_TEST_MODE_REG_ADDR))
    (hf : bus.failAt bus.count = false) :
    PCA9685ReadReg conf bus reg dataIn =
      (PCA9685LIB_SUCCESS, bus.mem reg,
        { mem := bus.mem, failAt := bus.failAt, count := bus.count + 1,
          trace := bus.trace ++ [BusOp.read conf.i2cAddr reg] }) := by
  unfold PCA9685ReadReg i2cRead
  rw [Nat.mod_eq_of_lt hr]
  rw [if_neg hallow]
  simp [hf, US_I2C_SUCCESS, PCA9685LIB_SUCCESS]

theorem readReg_fail (conf : PCA9685I2CConf) (bus : BusState) (reg dataIn : Nat)
    (hr : reg < 256)
    (hallow : ¬((PCA9685_LED15_OFF_H_REG_ADDR < reg ∧
        reg < PCA9685_ALL_LED_ON_L_REG_ADDR) ∨
        reg = PCA9685_TEST_MODE_REG_ADDR))
    (hf : bus.failAt bus.count = true) :
    PCA9685ReadReg conf bus reg dataIn =
      (PCA9685LIB_ERROR, dataIn,
        { mem := bus.mem, failAt := bus.failAt, count := bus.count + 1,
          trace := bus.trace ++ [BusOp.read conf.i2cAddr reg] }) := by
  unfold PCA9685ReadReg i2cRead
  rw [Nat.mod_eq_of_lt hr]
  rw [if_neg hallow]
  simp [hf, US_I2C_SUCCESS, US_I2C_ERROR, PCA9685LIB_ERROR]

theorem readReg_forbidden (conf : PCA9685I2CConf) (bus : BusState)
    (reg dataIn : Nat)
    (hforb : (PCA9685_LED15_OFF_H_REG_ADDR < reg ∧
        reg < PCA9685_ALL_LED_ON_L_REG_ADDR) ∨
        reg = PCA9685_TEST_MODE_REG_ADDR) :
    PCA9685ReadReg conf bus reg dataIn = (PCA9685LIB_ERROR, dataIn, bus) := by
  have hr : reg < 256 := by
    rcases hforb with ⟨_, h⟩ | h
    · simp only [PCA9685_ALL_LED_ON_L_REG_ADDR] at h; omega
    · simp only [PCA9685_TEST_MODE_REG_ADDR] at h; omega
  unfold PCA9685ReadReg
  rw [Nat.mod_eq_of_lt hr]
  rw [if_pos hforb]

/-! ### Arithmetic facts about the low/high byte split and merge -/

set_option maxRecDepth 8192 in
theorem mul256_lor_fin : ∀ h : Fin 16, ∀ l : Fin 256,
    ((h.val * 256) ||| l.val) = h.val * 256 + l.val := by decide

theorem mul256_lor (h l : Nat) (hh : h < 16) (hl : l < 256) :
    ((h * 256) ||| l) = h * 256 + l :=
  mul256_lor_fin ⟨h, hh⟩ ⟨l, hl⟩

/-- Splitting a 12-bit value into low and high byte and merging the two
bytes back, exactly as `PCA9685_SetPWM` and `PCA9685_GetPWM` do, is the
identity. -/
theorem lowHighMerge (v : Nat) (hv : v ≤ 4095) :
    ((((v >>> 8) % 256) <<< 8) ||| (v % 256)) % 65536 = v := by
  have h1 : v >>> 8 = v / 256 := by
    rw [Nat.shiftRight_eq_div_pow]
  have h2 : v / 256 < 16 := by omega
  have h3 : (v / 256) <<< 8 = v / 256 * 256 := by
    rw [Nat.shiftLeft_eq]
  rw [h1, Nat.mod_eq_of_lt (by omega : v / 256 < 256), h3,
    mul256_lor (v / 256) (v % 256) h2 (Nat.mod_lt v (by norm_num))]
  omega

/-! ### Claim theorems -/

/-- A concrete controller handle for closed test statements. -/
def conf64 : PCA9685I2CConf := { i2cAddr := 0x40 }

/-- A concrete transport whose MODE2 register holds 0xFF and every
other register 0xAA. -/
def busC1 : BusState :=
  busOk (fun r => if r = PCA9685_MODE2_REG_ADDR then 0xFF else 0xAA)

/-- C1: the claim says `EnableOutput`, `DisableOutput` and
`SetOutputInversion` write the modified byte back to the Mode2 register
address.  The code violates this: each of the three reads MODE2 but
issues its write to the MODE1 address, leaving MODE2 unchanged and
clobbering MODE1.  This theorem evaluates the code at a concrete
failing input: on a transport with MODE2 = 0xFF, each operation's
trace reads MODE2 and then writes to MODE1 (≠ MODE2), MODE2 keeps its
old value, and MODE1 receives the modified Mode2 byte. -/
theorem claim_C1 :
    PCA9685_MODE1_REG_ADDR ≠ PCA9685_MODE2_REG_ADDR ∧
    ((PCA9685_EnableOutput conf64 busC1).2.trace =
        [BusOp.read 0x40 PCA9685_MODE2_REG_ADDR,
         BusOp.write 0x40 PCA9685_MODE1_REG_ADDR 0xFC] ∧
      (PCA9685_EnableOutput conf64 busC1).2.mem PCA9685_MODE2_REG_ADDR = 0xFF ∧
      (PCA9685_EnableOutput conf64 busC1).2.mem PCA9685_MODE1_REG_ADDR = 0xFC) ∧
    ((PCA9685_DisableOutput conf64 busC1).2.trace =
        [BusOp.read 0x40 PCA9685_MODE2_REG_ADDR,
         BusOp.write 0x40 PCA9685_MODE1_REG_ADDR 0xFF] ∧
      (PCA9685_DisableOutput conf64 busC1).2.mem PCA9685_MODE2_REG_ADDR = 0xFF) ∧
    ((PCA9685_SetOutputInversion conf64 busC1 0).2.trace =
        [BusOp.read 0x40 PCA9685_MODE2_REG_ADDR,
         BusOp.write 0x40 PCA9685_MODE1_REG_ADDR 0xEF] ∧
      (PCA9685_SetOutputInversion conf64 busC1 0).2.mem
        PCA9685_MODE2_REG_ADDR = 0xFF) := by
  decide

/-- C2: for every register address strictly between the LED15-OFF-high
register and the ALL-LED-ON-low register, and for the test-mode
address, both `PCA9685WriteReg` and `PCA9685ReadReg` return the error
result with the transport state (hence its call trace) unchanged, for
every data byte. -/
theorem claim_C2 (conf : PCA9685I2CConf) (bus : BusState)
    (r data dataIn : Nat)
    (hforb : (PCA9685_LED15_OFF_H_REG_ADDR < r ∧
        r < PCA9685_ALL_LED_ON_L_REG_ADDR) ∨
        r = PCA9685_TEST_MODE_REG_ADDR) :
    PCA9685WriteReg conf bus r data = (PCA9685LIB_ERROR, bus) ∧
    PCA9685ReadReg conf bus r dataIn = (PCA9685LIB_ERROR, dataIn, bus) ∧
    (PCA9685WriteReg conf bus r data).2.trace = bus.trace ∧
    (PCA9685ReadReg conf bus r dataIn).2.2.trace = bus.trace := by
  refine ⟨writeReg_forbidden conf bus r data hforb,
    readReg_forbidden conf bus r dataIn hforb, ?_, ?_⟩
  · rw [writeReg_forbidden conf bus r data hforb]
  · rw [readReg_forbidden conf bus r dataIn hforb]

theorem claim_C2_witness :
    PCA9685WriteReg conf64 bus0 0x46 0x12 = (PCA9685LIB_ERROR, bus0) :=
  (claim_C2 conf64 bus0 0x46 0x12 0 (by decide)).1

/-- C7: after `PCA9685_Init` with device address 0x40 and channel 0,
`SetPWM(0, 0, 2048)` succeeds and issues exactly four register writes,
in order ON-L, ON-H, OFF-L, OFF-H of channel 0, carrying bytes
0x00, 0x00, 0x00, 0x08, and a subsequent `GetPWM(0)` succeeds and
returns the pair (0, 2048). -/
theorem claim_C7 :
    (PCA9685_Init 0x40 0).1 = PCA9685LIB_SUCCESS ∧
    (PCA9685_SetPWM (PCA9685_Init 0x40 0).2 bus0 0 0 2048).1 =
      PCA9685LIB_SUCCESS ∧
    (PCA9685_SetPWM (PCA9685_Init 0x40 0).2 bus0 0 0 2048).2.trace =
      [BusOp.write 0x40 (PCA9685_LED0_ON_L_REG_ADDR + 0 * 4) 0x00,
       BusOp.write 0x40 (PCA9685_LED0_ON_H_REG_ADDR + 0 * 4) 0x00,
       BusOp.write 0x40 (PCA9685_LED0_OFF_L_REG_ADDR + 0 * 4) 0x00,
       BusOp.write 0x40 (PCA9685_LED0_OFF_H_REG_ADDR + 0 * 4) 0x08] ∧
    (PCA9685_GetPWM (PCA9685_Init 0x40 0).2
      (PCA9685_SetPWM (PCA9685_Init 0x40 0).2 bus0 0 0 2048).2 0 0 0).1 =
      PCA9685LIB_SUCCESS ∧
    (PCA9685_GetPWM (PCA9685_Init 0x40 0).2
      (PCA9685_SetPWM (PCA9685_Init 0x40 0).2 bus0 0 0 2048).2 0 0 0).2.1 = 0 ∧
    (PCA9685_GetPWM (PCA9685_Init 0x40 0).2
      (PCA9685_SetPWM (PCA9685_Init 0x40 0).2 bus0 0 0 2048).2 0 0 0).2.2.1 =
      2048 := by
  decide

/-- C8: for every channel index greater than 15, `PCA9685_SetPWM` and
`PCA9685_GetPWM` return the error result with the transport state
unchanged (so no transport call is issued) and the output destinations
untouched, for all values. -/
theorem claim_C8 (conf : PCA9685I2CConf) (bus : BusState)
    (c onValue offValue onIn offIn : Nat) (hc : c > 15) :
    PCA9685_SetPWM conf bus c onValue offValue = (PCA9685LIB_ERROR, bus) ∧
    PCA9685_GetPWM conf bus c onIn offIn =
      (PCA9685LIB_ERROR, onIn, offIn, bus) := by
  have hc' : c > PCA9685_MAX_PWM_CHANNELS := by
    simp only [PCA9685_MAX_PWM_CHANNELS]; omega
  constructor
  · unfold PCA9685_SetPWM
    rw [if_pos hc']
  · unfold PCA9685_GetPWM
    rw [if_pos hc']

theorem claim_C8_witness :
    PCA9685_SetPWM conf64 bus0 16 0 0 = (PCA9685LIB_ERROR, bus0) :=
  (claim_C8 conf64 bus0 16 0 0 0 0 (by omega)).1

/-- C9: for every on or off value greater than 4095, `PCA9685_SetPWM`
and `PCA9685_SetAllPWM` return the error result with the transport
state unchanged (so before any transport call), regardless of the
channel index and the other value. -/
theorem claim_C9 (conf : PCA9685I2CConf) (bus : BusState)
    (c onValue offValue : Nat)
    (hv : onValue > 4095 ∨ offValue > 4095) :
    PCA9685_SetPWM conf bus c onValue offValue = (PCA9685LIB_ERROR, bus) ∧
    PCA9685_SetAllPWM conf bus onValue offValue = (PCA9685LIB_ERROR, bus) := by
  have hv' : onValue > PCA9685_MAX_PWM_VALUE ∨ offValue > PCA9685_MAX_PWM_VALUE := by
    simp only [PCA9685_MAX_PWM_VALUE]; omega
  constructor
  · unfold PCA9685_SetPWM
    by_cases hc : c > PCA9685_MAX_PWM_CHANNELS
    · rw [if_pos hc]
    · rw [if_neg hc, if_pos hv']
  · unfold PCA9685_SetAllPWM
    rw [if_pos hv']

theorem claim_C9_witness :
    PCA9685_SetPWM conf64 bus0 0 4096 0 = (PCA9685LIB_ERROR, bus0) :=
  (claim_C9 conf64 bus0 0 4096 0 (by omega)).1

theorem setPrescaler_eq (conf : PCA9685I2CConf) (bus : BusState) (p : Nat)
    (hp : p < 256) (hf : bus.failAt bus.count = false) :
    PCA9685_SetPrescaler conf bus p =
      (PCA9685LIB_SUCCESS,
        { mem := memUpd bus.mem PCA9685_PRE_SCALE_REG_ADDR
            (if p < PCA9685_MIN_PRESCALER then PCA9685_MIN_PRESCALER else p),
          failAt := bus.failAt, count := bus.count + 1,
          trace := bus.trace ++ [BusOp.write conf.i2cAddr
            PCA9685_PRE_SCALE_REG_ADDR
            (if p < PCA9685_MIN_PRESCALER then PCA9685_MIN_PRESCALER else p)] }) := by
  have hq : (if p < PCA9685_MIN_PRESCALER then PCA9685_MIN_PRESCALER else p) < 256 := by
    simp only [PCA9685_MIN_PRESCALER]
    split <;> omega
  simp only [PCA9685_SetPrescaler]
  rw [writeReg_ok conf bus PCA9685_PRE_SCALE_REG_ADDR _ (by decide)
    (by decide) hf]
  simp [Nat.mod_eq_of_lt hq]

/-- C5: `PCA9685_SetPrescaler` succeeds on a working transport for
every byte input, storing 3 in the prescaler register when the input is
below 3 and the input itself otherwise, and running it twice with the
same input stores the same byte both times. -/
theorem claim_C5 (conf : PCA9685I2CConf) (bus : BusState) (p : Nat)
    (hp : p < 256) (hfail : ∀ k, bus.failAt k = false) :
    (PCA9685_SetPrescaler conf bus p).1 = PCA9685LIB_SUCCESS ∧
    (PCA9685_SetPrescaler conf bus p).2.mem PCA9685_PRE_SCALE_REG_ADDR =
      (if p < 3 then 3 else p) ∧
    (PCA9685_SetPrescaler conf
        (PCA9685_SetPrescaler conf bus p).2 p).1 = PCA9685LIB_SUCCESS ∧
    (PCA9685_SetPrescaler conf
        (PCA9685_SetPrescaler conf bus p).2 p).2.mem
      PCA9685_PRE_SCALE_REG_ADDR =
      (PCA9685_SetPrescaler conf bus p).2.mem PCA9685_PRE_SCALE_REG_ADDR := by
  rw [setPrescaler_eq conf bus p hp (hfail bus.count)]
  have h2 := setPrescaler_eq conf
    { mem := memUpd bus.mem PCA9685_PRE_SCALE_REG_ADDR
        (if p < PCA9685_MIN_PRESCALER then PCA9685_MIN_PRESCALER else p),
      failAt := bus.failAt, count := bus.count + 1,
      trace := bus.trace ++ [BusOp.write conf.i2cAddr
        PCA9685_PRE_SCALE_REG_ADDR
        (if p < PCA9685_MIN_PRESCALER then PCA9685_MIN_PRESCALER else p)] }
    p hp (hfail (bus.count + 1))
  rw [h2]
  refine ⟨rfl, ?_, rfl, ?_⟩
  · simp [memUpd_same, PCA9685_MIN_PRESCALER]
  · simp [memUpd_same]

theorem claim_C5_witness :
    (PCA9685_SetPrescaler conf64 bus0 1).2.mem PCA9685_PRE_SCALE_REG_ADDR =
      (if 1 < 3 then 3 else 1) :=
  (claim_C5 conf64 bus0 1 (by omega) (fun _ => rfl)).2.1

theorem mode1_allowed :
    ¬((PCA9685_LED15_OFF_H_REG_ADDR < PCA9685_MODE1_REG_ADDR ∧
        PCA9685_MODE1_REG_ADDR < PCA9685_ALL_LED_ON_L_REG_ADDR) ∨
        PCA9685_MODE1_REG_ADDR = PCA9685_TEST_MODE_REG_ADDR) := by decide

theorem mode2_allowed :
    ¬((PCA9685_LED15_OFF_H_REG_ADDR < PCA9685_MODE2_REG_ADDR ∧
        PCA9685_MODE2_REG_ADDR < PCA9685_ALL_LED_ON_L_REG_ADDR) ∨
        PCA9685_MODE2_REG_ADDR = PCA9685_TEST_MODE_REG_ADDR) := by decide

theorem sleep_eq (conf : PCA9685I2CConf) (bus : BusState)
    (hm : bus.mem PCA9685_MODE1_REG_ADDR < 256)
    (hf : ∀ k, bus.failAt k = false) :
    PCA9685_Sleep conf bus =
      (PCA9685LIB_SUCCESS,
        { mem := memUpd bus.mem PCA9685_MODE1_REG_ADDR
            (mode1SetSleep (bus.mem PCA9685_MODE1_REG_ADDR)),
          failAt := bus.failAt, count := bus.count + 2,
          trace := bus.trace ++
            [BusOp.read conf.i2cAddr PCA9685_MODE1_REG_ADDR,
             BusOp.write conf.i2cAddr PCA9685_MODE1_REG_ADDR
               (mode1SetSleep (bus.mem PCA9685_MODE1_REG_ADDR))] }) := by
  have hlt : mode1SetSleep (bus.mem PCA9685_MODE1_REG_ADDR) < 256 := by
    have := Nat.or_lt_two_pow (n := 8)
      (Nat.lt_of_lt_of_le hm (by norm_num))
      (show 0x10 < 2 ^ 8 by norm_num)
    simpa [mode1SetSleep] using this
  simp only [PCA9685_Sleep]
  rw [readReg_ok conf bus PCA9685_MODE1_REG_ADDR 0 (by decide) mode1_allowed
    (hf bus.count)]
  simp only []
  rw [writeReg_ok conf _ PCA9685_MODE1_REG_ADDR _ (by decide) mode1_allowed
    (hf (bus.count + 1))]
  simp [Nat.mod_eq_of_lt hlt, PCA9685LIB_SUCCESS, PCA9685LIB_ERROR]

theorem wakeUp_eq (conf : PCA9685I2CConf) (bus : BusState)
    (hf : ∀ k, bus.failAt k = false) :
    PCA9685_WakeUp conf bus =
      (PCA9685LIB_SUCCESS,
        { mem := memUpd bus.mem PCA9685_MODE1_REG_ADDR
            (mode1ClearSleep (bus.mem PCA9685_MODE1_REG_ADDR)),
          failAt := bus.failAt, count := bus.count + 2,
          trace := bus.trace ++
            [BusOp.read conf.i2cAddr PCA9685_MODE1_REG_ADDR,
             BusOp.write conf.i2cAddr PCA9685_MODE1_REG_ADDR
               (mode1ClearSleep (bus.mem PCA9685_MODE1_REG_ADDR))] }) := by
  have hlt : mode1ClearSleep (bus.mem PCA9685_MODE1_REG_ADDR) < 256 := by
    have h1 : mode1ClearSleep (bus.mem PCA9685_MODE1_REG_ADDR) ≤ 0xEF :=
      Nat.and_le_right
    omega
  simp only [PCA9685_WakeUp]
  rw [readReg_ok conf bus PCA9685_MODE1_REG_ADDR 0 (by decide) mode1_allowed
    (hf bus.count)]
  simp only []
  rw [writeReg_ok conf _ PCA9685_MODE1_REG_ADDR _ (by decide) mode1_allowed
    (hf (bus.count + 1))]
  simp [Nat.mod_eq_of_lt hlt, PCA9685LIB_SUCCESS, PCA9685LIB_ERROR]

theorem reset_eq (conf : PCA9685I2CConf) (bus : BusState)
    (hm : bus.mem PCA9685_MODE1_REG_ADDR < 256)
    (hf : ∀ k, bus.failAt k = false) :
    PCA9685_Reset conf bus =
      (PCA9685LIB_SUCCESS,
        { mem := memUpd bus.mem PCA9685_MODE1_REG_ADDR
            (mode1SetRestart (bus.mem PCA9685_MODE1_REG_ADDR)),
          failAt := bus.failAt, count := bus.count + 2,
          trace := bus.trace ++
            [BusOp.read conf.i2cAddr PCA9685_MODE1_REG_ADDR,
             BusOp.write conf.i2cAddr PCA9685_MODE1_REG_ADDR
               (mode1SetRestart (bus.mem PCA9685_MODE1_REG_ADDR))] }) := by
  have hlt : mode1SetRestart (bus.mem PCA9685_MODE1_REG_ADDR) < 256 := by
    have := Nat.or_lt_two_pow (n := 8)
      (Nat.lt_of_lt_of_le hm (by norm_num))
      (show 0x80 < 2 ^ 8 by norm_num)
    simpa [mode1SetRestart] using this
  simp only [PCA9685_Reset]
  rw [readReg_ok conf bus PCA9685_MODE1_REG_ADDR 0 (by decide) mode1_allowed
    (hf bus.count)]
  simp only []
  rw [writeReg_ok conf _ PCA9685_MODE1_REG_ADDR _ (by decide) mode1_allowed
    (hf (bus.count + 1))]
  simp [Nat.mod_eq_of_lt hlt, PCA9685LIB_SUCCESS, PCA9685LIB_ERROR]

/-- Bits of the mask 0xEF: every position below 8 except 4 is set. -/
theorem testBit_239 : ∀ i, i < 8 → i ≠ 4 → Nat.testBit 0xEF i = true := by
  decide

theorem setSleep_testBit (m : Nat) :
    (mode1SetSleep m).testBit 4 = true ∧
    ∀ i, i ≠ 4 → (mode1SetSleep m).testBit i = m.testBit i := by
  constructor
  · simp [mode1SetSleep, Nat.testBit_lor,
      show Nat.testBit 0x10 4 = true from by decide]
  · intro i hi
    have h16 : Nat.testBit 0x10 i = false := by
      rw [show (0x10 : Nat) = 2 ^ 4 by norm_num, Nat.testBit_two_pow]
      simpa using fun h => hi h.symm
    simp [mode1SetSleep, Nat.testBit_lor, h16]

theorem clearSleep_testBit (m : Nat) (hm : m < 256) :
    (mode1ClearSleep m).testBit 4 = false ∧
    ∀ i, i ≠ 4 → (mode1ClearSleep m).testBit i = m.testBit i := by
  constructor
  · simp [mode1ClearSleep, Nat.testBit_land,
      show Nat.testBit 0xEF 4 = false from by decide]
  · intro i hi
    rcases Nat.lt_or_ge i 8 with h8 | h8
    · simp [mode1ClearSleep, Nat.testBit_land, testBit_239 i h8 hi]
    · have hmf : m.testBit i = false :=
        Nat.testBit_lt_two_pow (Nat.lt_of_lt_of_le hm
          (le_trans (by norm_num) (Nat.pow_le_pow_right (by norm_num) h8)))
      have hcf : (mode1ClearSleep m).testBit i = false :=
        Nat.testBit_lt_two_pow (Nat.lt_of_le_of_lt
          (Nat.and_le_left)
          (Nat.lt_of_lt_of_le hm
            (le_trans (by norm_num) (Nat.pow_le_pow_right (by norm_num) h8))))
      rw [hmf, hcf]

theorem setRestart_testBit (m : Nat) :
    (mode1SetRestart m).testBit 7 = true ∧
    ∀ i, i ≠ 7 → (mode1SetRestart m).testBit i = m.testBit i := by
  constructor
  · simp [mode1SetRestart, Nat.testBit_lor,
      show Nat.testBit 0x80 7 = true from by decide]
  · intro i hi
    have h128 : Nat.testBit 0x80 i = false := by
      rw [show (0x80 : Nat) = 2 ^ 7 by norm_num, Nat.testBit_two_pow]
      simpa using fun h => hi h.symm
    simp [mode1SetRestart, Nat.testBit_lor, h128]

/-- C4: on a working transport whose MODE1 register holds the byte m,
`PCA9685_Sleep` succeeds and writes back m with the sleep bit (bit 4)
set and every other bit equal to its pre-call value; `PCA9685_WakeUp`
succeeds and writes back m with the sleep bit cleared and every other
bit unchanged; `PCA9685_Reset` succeeds and writes back m with the
restart bit (bit 7) set and every other bit unchanged. -/
theorem claim_C4 (conf : PCA9685I2CConf) (bus : BusState) (m : Nat)
    (hm : m < 256) (hmem : bus.mem PCA9685_MODE1_REG_ADDR = m)
    (hfail : ∀ k, bus.failAt k = false) :
    ((PCA9685_Sleep conf bus).1 = PCA9685LIB_SUCCESS ∧
      ((PCA9685_Sleep conf bus).2.mem PCA9685_MODE1_REG_ADDR).testBit 4 = true ∧
      ∀ i, i ≠ 4 →
        ((PCA9685_Sleep conf bus).2.mem PCA9685_MODE1_REG_ADDR).testBit i =
          m.testBit i) ∧
    ((PCA9685_WakeUp conf bus).1 = PCA9685LIB_SUCCESS ∧
      ((PCA9685_WakeUp conf bus).2.mem PCA9685_MODE1_REG_ADDR).testBit 4 = false ∧
      ∀ i, i ≠ 4 →
        ((PCA9685_WakeUp conf bus).2.mem PCA9685_MODE1_REG_ADDR).testBit i =
          m.testBit i) ∧
    ((PCA9685_Reset conf bus).1 = PCA9685LIB_SUCCESS ∧
      ((PCA9685_Reset conf bus).2.mem PCA9685_MODE1_REG_ADDR).testBit 7 = true ∧
      ∀ i, i ≠ 7 →
        ((PCA9685_Reset conf bus).2.mem PCA9685_MODE1_REG_ADDR).testBit i =
          m.testBit i) := by
  have hm' : bus.mem PCA9685_MODE1_REG_ADDR < 256 := by rw [hmem]; exact hm
  refine ⟨?_, ?_, ?_⟩
  · rw [sleep_eq conf bus hm' hfail]
    refine ⟨rfl, ?_, ?_⟩
    · simp only [memUpd_same, hmem]
      exact (setSleep_testBit m).1
    · intro i hi
      simp only [memUpd_same, hmem]
      exact (setSleep_testBit m).2 i hi
  · rw [wakeUp_eq conf bus hfail]
    refine ⟨rfl, ?_, ?_⟩
    · simp only [memUpd_same, hmem]
      exact (clearSleep_testBit m hm).1
    · intro i hi
      simp only [memUpd_same, hmem]
      exact (clearSleep_testBit m hm).2 i hi
  · rw [reset_eq conf bus hm' hfail]
    refine ⟨rfl, ?_, ?_⟩
    · simp only [memUpd_same, hmem]
      exact (setRestart_testBit m).1
    · intro i hi
      simp only [memUpd_same, hmem]
      exact (setRestart_testBit m).2 i hi

theorem claim_C4_witness :
    ((PCA9685_Sleep conf64 (busOk (fun _ => 0xA5))).2.mem
      PCA9685_MODE1_REG_ADDR).testBit 4 = true :=
  (claim_C4 conf64 (busOk (fun _ => 0xA5)) 0xA5 (by omega) rfl
    (fun _ => rfl)).1.2.1

/-- C10: `PCA9685_GetPWM` is not atomic in its output destinations: on
a transport where the third call (the OFF-low read) fails after the two
ON reads succeed, the call returns the error result with the on-value
destination already overwritten by the freshly read on-value while the
off-value destination keeps its pre-call content, and exactly three
transport reads were issued. -/
theorem claim_C10 (conf : PCA9685I2CConf) (bus : BusState)
    (c onIn offIn : Nat) (hc : c ≤ 15)
    (hfail : ∀ k, bus.failAt k = decide (k = bus.count + 2)) :
    (PCA9685_GetPWM conf bus c onIn offIn).1 = PCA9685LIB_ERROR ∧
    (PCA9685_GetPWM conf bus c onIn offIn).2.1 =
      ((bus.mem (PCA9685_LED0_ON_H_REG_ADDR + c * 4) <<< 8) |||
        bus.mem (PCA9685_LED0_ON_L_REG_ADDR + c * 4)) % 65536 ∧
    (PCA9685_GetPWM conf bus c onIn offIn).2.2.1 = offIn ∧
    (PCA9685_GetPWM conf bus c onIn offIn).2.2.2.trace =
      bus.trace ++
        [BusOp.read conf.i2cAddr (PCA9685_LED0_ON_L_REG_ADDR + c * 4),
         BusOp.read conf.i2cAddr (PCA9685_LED0_ON_H_REG_ADDR + c * 4),
         BusOp.read conf.i2cAddr (PCA9685_LED0_OFF_L_REG_ADDR + c * 4)] := by
  have hc' : ¬(c > PCA9685_MAX_PWM_CHANNELS) := by
    simp only [PCA9685_MAX_PWM_CHANNELS]; omega
  simp only [PCA9685_GetPWM]
  rw [if_neg hc']
  rw [readReg_ok conf bus (PCA9685_LED0_ON_L_REG_ADDR + c * 4) 0
    (by simp only [PCA9685_LED0_ON_L_REG_ADDR]; omega)
    (by simp only [PCA9685_LED15_OFF_H_REG_ADDR, PCA9685_ALL_LED_ON_L_REG_ADDR,
        PCA9685_TEST_MODE_REG_ADDR, PCA9685_LED0_ON_L_REG_ADDR]; omega)
    (by rw [hfail]; exact decide_eq_false (by omega))]
  simp only []
  rw [readReg_ok conf _ (PCA9685_LED0_ON_H_REG_ADDR + c * 4) 0
    (by simp only [PCA9685_LED0_ON_H_REG_ADDR]; omega)
    (by simp only [PCA9685_LED15_OFF_H_REG_ADDR, PCA9685_ALL_LED_ON_L_REG_ADDR,
        PCA9685_TEST_MODE_REG_ADDR, PCA9685_LED0_ON_H_REG_ADDR]; omega)
    (by exact (hfail (bus.count + 1)).trans (decide_eq_false (by omega)))]
  simp only []
  rw [readReg_fail conf _ (PCA9685_LED0_OFF_L_REG_ADDR + c * 4) _
    (by simp only [PCA9685_LED0_OFF_L_REG_ADDR]; omega)
    (by simp only [PCA9685_LED15_OFF_H_REG_ADDR, PCA9685_ALL_LED_ON_L_REG_ADDR,
        PCA9685_TEST_MODE_REG_ADDR, PCA9685_LED0_OFF_L_REG_ADDR]; omega)
    (by exact (hfail (bus.count + 1 + 1)).trans (decide_eq_true (by omega)))]
  simp [PCA9685LIB_SUCCESS, PCA9685LIB_ERROR]

theorem mod256_mod256 (a : Nat) : a % 256 % 256 = a % 256 :=
  Nat.mod_mod_of_dvd a dvd_rfl

/-- The register address targeted by the i-th of the four writes that
`PCA9685_SetPWM` issues for a channel (pca9685lib.c:322-342). -/
def setPWMReg (c : Nat) : Nat → Nat
  | 0 => PCA9685_LED0_ON_L_REG_ADDR + c * 4
  | 1 => PCA9685_LED0_ON_H_REG_ADDR + c * 4
  | 2 => PCA9685_LED0_OFF_L_REG_ADDR + c * 4
  | _ => PCA9685_LED0_OFF_H_REG_ADDR + c * 4

/-- The data byte carried by the i-th of the four writes that
`PCA9685_SetPWM` issues (pca9685lib.c:322-342). -/
def setPWMData (onValue offValue : Nat) : Nat → Nat
  | 0 => onValue % 256
  | 1 => (onValue >>> 8) % 256
  | 2 => offValue % 256
  | _ => (offValue >>> 8) % 256

/-- C6: if the transport write at position j (0-based, j ≤ 3) of the
four register writes of `PCA9685_SetPWM` fails — in particular j = 1,
the second write — the whole call returns the error result, the trace
shows exactly the j earlier writes plus the failing one and nothing
after it, and every earlier write's effect remains applied in the
transport state (no rollback). -/
theorem claim_C6 (conf : PCA9685I2CConf) (bus : BusState)
    (c onValue offValue j : Nat) (hc : c ≤ 15) (hon : onValue ≤ 4095)
    (hoff : offValue ≤ 4095) (hj : j ≤ 3)
    (hfail : ∀ k, bus.failAt k = decide (k = bus.count + j)) :
    (PCA9685_SetPWM conf bus c onValue offValue).1 = PCA9685LIB_ERROR ∧
    (PCA9685_SetPWM conf bus c onValue offValue).2.trace =
      bus.trace ++ (List.range (j + 1)).map
        (fun i => BusOp.write conf.i2cAddr (setPWMReg c i)
          (setPWMData onValue offValue i)) ∧
    ∀ i, i < j →
      (PCA9685_SetPWM conf bus c onValue offValue).2.mem (setPWMReg c i) =
        setPWMData onValue offValue i := by
  have hc' : ¬(c > PCA9685_MAX_PWM_CHANNELS) := by
    simp only [PCA9685_MAX_PWM_CHANNELS]; omega
  have hv' : ¬(onValue > PCA9685_MAX_PWM_VALUE ∨
      offValue > PCA9685_MAX_PWM_VALUE) := by
    simp only [PCA9685_MAX_PWM_VALUE]; omega
  have hlt : ∀ r : Nat, r ≤ 0x45 → r < 256 := fun r h => by omega
  have hb : ∀ r : Nat, r ≤ 0x45 →
      ¬((PCA9685_LED15_OFF_H_REG_ADDR < r ∧
        r < PCA9685_ALL_LED_ON_L_REG_ADDR) ∨
        r = PCA9685_TEST_MODE_REG_ADDR) := by
    intro r h
    simp only [PCA9685_LED15_OFF_H_REG_ADDR, PCA9685_ALL_LED_ON_L_REG_ADDR,
      PCA9685_TEST_MODE_REG_ADDR]
    omega
  have h1 : PCA9685_LED0_ON_L_REG_ADDR + c * 4 ≤ 0x45 := by
    simp only [PCA9685_LED0_ON_L_REG_ADDR]; omega
  have h2 : PCA9685_LED0_ON_H_REG_ADDR + c * 4 ≤ 0x45 := by
    simp only [PCA9685_LED0_ON_H_REG_ADDR]; omega
  have h3 : PCA9685_LED0_OFF_L_REG_ADDR + c * 4 ≤ 0x45 := by
    simp only [PCA9685_LED0_OFF_L_REG_ADDR]; omega
  have h4 : PCA9685_LED0_OFF_H_REG_ADDR + c * 4 ≤ 0x45 := by
    simp only [PCA9685_LED0_OFF_H_REG_ADDR]; omega
  have hne01 : ¬(PCA9685_LED0_ON_L_REG_ADDR + c * 4 =
      PCA9685_LED0_ON_H_REG_ADDR + c * 4) := by
    simp only [PCA9685_LED0_ON_L_REG_ADDR, PCA9685_LED0_ON_H_REG_ADDR]; omega
  have hne02 : ¬(PCA9685_LED0_ON_L_REG_ADDR + c * 4 =
      PCA9685_LED0_OFF_L_REG_ADDR + c * 4) := by
    simp only [PCA9685_LED0_ON_L_REG_ADDR, PCA9685_LED0_OFF_L_REG_ADDR]; omega
  have hne12 : ¬(PCA9685_LED0_ON_H_REG_ADDR + c * 4 =
      PCA9685_LED0_OFF_L_REG_ADDR + c * 4) := by
    simp only [PCA9685_LED0_ON_H_REG_ADDR, PCA9685_LED0_OFF_L_REG_ADDR]; omega
  simp only [PCA9685_SetPWM]
  rw [if_neg hc', if_neg hv']
  interval_cases j
  · rw [writeReg_fail conf bus (PCA9685_LED0_ON_L_REG_ADDR + c * 4)
      (onValue % 256) (hlt _ h1) (hb _ h1)
      (by exact (hfail bus.count).trans (decide_eq_true (by omega)))]
    refine ⟨by simp [PCA9685LIB_SUCCESS, PCA9685LIB_ERROR], ?_, ?_⟩
    · simp [PCA9685LIB_SUCCESS, PCA9685LIB_ERROR, setPWMReg, setPWMData,
        mod256_mod256, List.range_succ]
    · intro i hi; omega
  · rw [writeReg_ok conf bus (PCA9685_LED0_ON_L_REG_ADDR + c * 4)
      (onValue % 256) (hlt _ h1) (hb _ h1)
      (by exact (hfail bus.count).trans (decide_eq_false (by omega)))]
    simp only []
    rw [writeReg_fail conf _ (PCA9685_LED0_ON_H_REG_ADDR + c * 4)
      ((onValue >>> 8) % 256) (hlt _ h2) (hb _ h2)
      (by exact (hfail (bus.count + 1)).trans (decide_eq_true (by omega)))]
    refine ⟨by simp [PCA9685LIB_SUCCESS, PCA9685LIB_ERROR], ?_, ?_⟩
    · simp [PCA9685LIB_SUCCESS, PCA9685LIB_ERROR, setPWMReg, setPWMData,
        mod256_mod256, List.range_succ]
    · intro i hi
      interval_cases i
      simp [PCA9685LIB_SUCCESS, PCA9685LIB_ERROR, setPWMReg, setPWMData,
        mod256_mod256, memUpd]
  · rw [writeReg_ok conf bus (PCA9685_LED0_ON_L_REG_ADDR + c * 4)
      (onValue % 256) (hlt _ h1) (hb _ h1)
      (by exact (hfail bus.count).trans (decide_eq_false (by omega)))]
    simp only []
    rw [writeReg_ok conf _ (PCA9685_LED0_ON_H_REG_ADDR + c * 4)
      ((onValue >>> 8) % 256) (hlt _ h2) (hb _ h2)
      (by exact (hfail (bus.count + 1)).trans (decide_eq_false (by omega)))]
    simp only []
    rw [writeReg_fail conf _ (PCA9685_LED0_OFF_L_REG_ADDR + c * 4)
      (offValue % 256) (hlt _ h3) (hb _ h3)
      (by exact (hfail (bus.count + 1 + 1)).trans (decide_eq_true (by omega)))]
    refine ⟨by simp [PCA9685LIB_SUCCESS, PCA9685LIB_ERROR], ?_, ?_⟩
    · simp [PCA9685LIB_SUCCESS, PCA9685LIB_ERROR, setPWMReg, setPWMData,
        mod256_mod256, List.range_succ]
    · intro i hi
      interval_cases i <;>
        simp [PCA9685LIB_SUCCESS, PCA9685LIB_ERROR, setPWMReg, setPWMData,
          mod256_mod256, memUpd, hne01]
  · rw [writeReg_ok conf bus (PCA9685_LED0_ON_L_REG_ADDR + c * 4)
      (onValue % 256) (hlt _ h1) (hb _ h1)
      (by exact (hfail bus.count).trans (decide_eq_false (by omega)))]
    simp only []
    rw [writeReg_ok conf _ (PCA9685_LED0_ON_H_REG_ADDR + c * 4)
      ((onValue >>> 8) % 256) (hlt _ h2) (hb _ h2)
      (by exact (hfail (bus.count + 1)).trans (decide_eq_false (by omega)))]
    simp only []
    rw [writeReg_ok conf _ (PCA9685_LED0_OFF_L_REG_ADDR + c * 4)
      (offValue % 256) (hlt _ h3) (hb _ h3)
      (by exact (hfail (bus.count + 1 + 1)).trans (decide_eq_false (by omega)))]
    simp only []
    rw [writeReg_fail conf _ (PCA9685_LED0_OFF_H_REG_ADDR + c * 4)
      ((offValue >>> 8) % 256) (hlt _ h4) (hb _ h4)
      ((hfail (bus.count + 1 + 1 + 1)).trans (decide_eq_true (by omega)))]
    refine ⟨by simp [PCA9685LIB_SUCCESS, PCA9685LIB_ERROR], ?_, ?_⟩
    · simp [PCA9685LIB_SUCCESS, PCA9685LIB_ERROR, setPWMReg, setPWMData,
        mod256_mod256, List.range_succ]
    · intro i hi
      interval_cases i <;>
        simp [PCA9685LIB_SUCCESS, PCA9685LIB_ERROR, setPWMReg, setPWMData,
          mod256_mod256, memUpd, hne01, hne02, hne12]

theorem setPWM_ok (conf : PCA9685I2CConf) (bus : BusState)
    (c onValue offValue : Nat) (hc : c ≤ 15) (hon : onValue ≤ 4095)
    (hoff : offValue ≤ 4095) (hf : ∀ k, bus.failAt k = false) :
    PCA9685_SetPWM conf bus c onValue offValue =
      (PCA9685LIB_SUCCESS,
        { mem := memUpd (memUpd (memUpd (memUpd bus.mem
            (PCA9685_LED0_ON_L_REG_ADDR + c * 4) (onValue % 256))
            (PCA9685_LED0_ON_H_REG_ADDR + c * 4) ((onValue >>> 8) % 256))
            (PCA9685_LED0_OFF_L_REG_ADDR + c * 4) (offValue % 256))
            (PCA9685_LED0_OFF_H_REG_ADDR + c * 4) ((offValue >>> 8) % 256),
          failAt := bus.failAt, count := bus.count + 1 + 1 + 1 + 1,
          trace := bus.trace ++
            [BusOp.write conf.i2cAddr (PCA9685_LED0_ON_L_REG_ADDR + c * 4)
              (onValue % 256),
             BusOp.write conf.i2cAddr (PCA9685_LED0_ON_H_REG_ADDR + c * 4)
              ((onValue >>> 8) % 256),
             BusOp.write conf.i2cAddr (PCA9685_LED0_OFF_L_REG_ADDR + c * 4)
              (offValue % 256),
             BusOp.write conf.i2cAddr (PCA9685_LED0_OFF_H_REG_ADDR + c * 4)
              ((offValue >>> 8) % 256)] }) := by
  have hc' : ¬(c > PCA9685_MAX_PWM_CHANNELS) := by
    simp only [PCA9685_MAX_PWM_CHANNELS]; omega
  have hv' : ¬(onValue > PCA9685_MAX_PWM_VALUE ∨
      offValue > PCA9685_MAX_PWM_VALUE) := by
    simp only [PCA9685_MAX_PWM_VALUE]; omega
  have hlt : ∀ r : Nat, r ≤ 0x45 → r < 256 := fun r h => by omega
  have hb : ∀ r : Nat, r ≤ 0x45 →
      ¬((PCA9685_LED15_OFF_H_REG_ADDR < r ∧
        r < PCA9685_ALL_LED_ON_L_REG_ADDR) ∨
        r = PCA9685_TEST_MODE_REG_ADDR) := by
    intro r h
    simp only [PCA9685_LED15_OFF_H_REG_ADDR, PCA9685_ALL_LED_ON_L_REG_ADDR,
      PCA9685_TEST_MODE_REG_ADDR]
    omega
  have h1 : PCA9685_LED0_ON_L_REG_ADDR + c * 4 ≤ 0x45 := by
    simp only [PCA9685_LED0_ON_L_REG_ADDR]; omega
  have h2 : PCA9685_LED0_ON_H_REG_ADDR + c * 4 ≤ 0x45 := by
    simp only [PCA9685_LED0_ON_H_REG_ADDR]; omega
  have h3 : PCA9685_LED0_OFF_L_REG_ADDR + c * 4 ≤ 0x45 := by
    simp only [PCA9685_LED0_OFF_L_REG_ADDR]; omega
  have h4 : PCA9685_LED0_OFF_H_REG_ADDR + c * 4 ≤ 0x45 := by
    simp only [PCA9685_LED0_OFF_H_REG_ADDR]; omega
  simp only [PCA9685_SetPWM]
  rw [if_neg hc', if_neg hv']
  rw [writeReg_ok conf bus (PCA9685_LED0_ON_L_REG_ADDR + c * 4)
    (onValue % 256) (hlt _ h1) (hb _ h1) (hf bus.count)]
  simp only []
  rw [writeReg_ok conf _ (PCA9685_LED0_ON_H_REG_ADDR + c * 4)
    ((onValue >>> 8) % 256) (hlt _ h2) (hb _ h2) (hf (bus.count + 1))]
  simp only []
  rw [writeReg_ok conf _ (PCA9685_LED0_OFF_L_REG_ADDR + c * 4)
    (offValue % 256) (hlt _ h3) (hb _ h3) (hf (bus.count + 1 + 1))]
  simp only []
  rw [writeReg_ok conf _ (PCA9685_LED0_OFF_H_REG_ADDR + c * 4)
    ((offValue >>> 8) % 256) (hlt _ h4) (hb _ h4) (hf (bus.count + 1 + 1 + 1))]
  simp [PCA9685LIB_SUCCESS, PCA9685LIB_ERROR, mod256_mod256]

theorem getPWM_ok (conf : PCA9685I2CConf) (bus : BusState)
    (c onIn offIn : Nat) (hc : c ≤ 15) (hf : ∀ k, bus.failAt k = false) :
    PCA9685_GetPWM conf bus c onIn offIn =
      (PCA9685LIB_SUCCESS,
        ((bus.mem (PCA9685_LED0_ON_H_REG_ADDR + c * 4) <<< 8) |||
          bus.mem (PCA9685_LED0_ON_L_REG_ADDR + c * 4)) % 65536,
        ((bus.mem (PCA9685_LED0_OFF_H_REG_ADDR + c * 4) <<< 8) |||
          bus.mem (PCA9685_LED0_OFF_L_REG_ADDR + c * 4)) % 65536,
        { mem := bus.mem, failAt := bus.failAt,
          count := bus.count + 1 + 1 + 1 + 1,
          trace := bus.trace ++
            [BusOp.read conf.i2cAddr (PCA9685_LED0_ON_L_REG_ADDR + c * 4),
             BusOp.read conf.i2cAddr (PCA9685_LED0_ON_H_REG_ADDR + c * 4),
             BusOp.read conf.i2cAddr (PCA9685_LED0_OFF_L_REG_ADDR + c * 4),
             BusOp.read conf.i2cAddr (PCA9685_LED0_OFF_H_REG_ADDR + c * 4)] }) := by
  have hc' : ¬(c > PCA9685_MAX_PWM_CHANNELS) := by
    simp only [PCA9685_MAX_PWM_CHANNELS]; omega
  have hlt : ∀ r : Nat, r ≤ 0x45 → r < 256 := fun r h => by omega
  have hb : ∀ r : Nat, r ≤ 0x45 →
      ¬((PCA9685_LED15_OFF_H_REG_ADDR < r ∧
        r < PCA9685_ALL_LED_ON_L_REG_ADDR) ∨
        r = PCA9685_TEST_MODE_REG_ADDR) := by
    intro r h
    simp only [PCA9685_LED15_OFF_H_REG_ADDR, PCA9685_ALL_LED_ON_L_REG_ADDR,
      PCA9685_TEST_MODE_REG_ADDR]
    omega
  have h1 : PCA9685_LED0_ON_L_REG_ADDR + c * 4 ≤ 0x45 := by
    simp only [PCA9685_LED0_ON_L_REG_ADDR]; omega
  have h2 : PCA9685_LED0_ON_H_REG_ADDR + c * 4 ≤ 0x45 := by
    simp only [PCA9685_LED0_ON_H_REG_ADDR]; omega
  have h3 : PCA9685_LED0_OFF_L_REG_ADDR + c * 4 ≤ 0x45 := by
    simp only [PCA9685_LED0_OFF_L_REG_ADDR]; omega
  have h4 : PCA9685_LED0_OFF_H_REG_ADDR + c * 4 ≤ 0x45 := by
    simp only [PCA9685_LED0_OFF_H_REG_ADDR]; omega
  simp only [PCA9685_GetPWM]
  rw [if_neg hc']
  rw [readReg_ok conf bus (PCA9685_LED0_ON_L_REG_ADDR + c * 4) 0
    (hlt _ h1) (hb _ h1) (hf bus.count)]
  simp only []
  rw [readReg_ok conf _ (PCA9685_LED0_ON_H_REG_ADDR + c * 4) 0
    (hlt _ h2) (hb _ h2) (hf (bus.count + 1))]
  simp only []
  rw [readReg_ok conf _ (PCA9685_LED0_OFF_L_REG_ADDR + c * 4) _
    (hlt _ h3) (hb _ h3) (hf (bus.count + 1 + 1))]
  simp only []
  rw [readReg_ok conf _ (PCA9685_LED0_OFF_H_REG_ADDR + c * 4) _
    (hlt _ h4) (hb _ h4) (hf (bus.count + 1 + 1 + 1))]
  simp [PCA9685LIB_SUCCESS, PCA9685LIB_ERROR]

/-- C3: against a never-failing transport that persists writes, for
every channel c in [0,15] and values on, off in [0,4095],
`PCA9685_SetPWM c on off` succeeds and a subsequent
`PCA9685_GetPWM c` succeeds and returns exactly the pair (on, off),
whatever the pre-call contents of the output destinations. -/
theorem claim_C3 (conf : PCA9685I2CConf) (bus : BusState)
    (c onValue offValue onIn offIn : Nat) (hc : c ≤ 15)
    (hon : onValue ≤ 4095) (hoff : offValue ≤ 4095)
    (hfail : ∀ k, bus.failAt k = false) :
    (PCA9685_SetPWM conf bus c onValue offValue).1 = PCA9685LIB_SUCCESS ∧
    (PCA9685_GetPWM conf (PCA9685_SetPWM conf bus c onValue offValue).2
      c onIn offIn).1 = PCA9685LIB_SUCCESS ∧
    (PCA9685_GetPWM conf (PCA9685_SetPWM conf bus c onValue offValue).2
      c onIn offIn).2.1 = onValue ∧
    (PCA9685_GetPWM conf (PCA9685_SetPWM conf bus c onValue offValue).2
      c onIn offIn).2.2.1 = offValue := by
  have hne01 : ¬(PCA9685_LED0_ON_L_REG_ADDR + c * 4 =
      PCA9685_LED0_ON_H_REG_ADDR + c * 4) := by
    simp only [PCA9685_LED0_ON_L_REG_ADDR, PCA9685_LED0_ON_H_REG_ADDR]; omega
  have hne02 : ¬(PCA9685_LED0_ON_L_REG_ADDR + c * 4 =
      PCA9685_LED0_OFF_L_REG_ADDR + c * 4) := by
    simp only [PCA9685_LED0_ON_L_REG_ADDR, PCA9685_LED0_OFF_L_REG_ADDR]; omega
  have hne03 : ¬(PCA9685_LED0_ON_L_REG_ADDR + c * 4 =
      PCA9685_LED0_OFF_H_REG_ADDR + c * 4) := by
    simp only [PCA9685_LED0_ON_L_REG_ADDR, PCA9685_LED0_OFF_H_REG_ADDR]; omega
  have hne12 : ¬(PCA9685_LED0_ON_H_REG_ADDR + c * 4 =
      PCA9685_LED0_OFF_L_REG_ADDR + c * 4) := by
    simp only [PCA9685_LED0_ON_H_REG_ADDR, PCA9685_LED0_OFF_L_REG_ADDR]; omega
  have hne13 : ¬(PCA9685_LED0_ON_H_REG_ADDR + c * 4 =
      PCA9685_LED0_OFF_H_REG_ADDR + c * 4) := by
    simp only [PCA9685_LED0_ON_H_REG_ADDR, PCA9685_LED0_OFF_H_REG_ADDR]; omega
  have hne23 : ¬(PCA9685_LED0_OFF_L_REG_ADDR + c * 4 =
      PCA9685_LED0_OFF_H_REG_ADDR + c * 4) := by
    simp only [PCA9685_LED0_OFF_L_REG_ADDR, PCA9685_LED0_OFF_H_REG_ADDR]; omega
  rw [setPWM_ok conf bus c onValue offValue hc hon hoff hfail]
  simp only []
  rw [getPWM_ok conf _ c onIn offIn hc (by exact fun k => hfail k)]
  refine ⟨by trivial, by trivial, ?_, ?_⟩
  · simp only [memUpd, if_neg hne13, if_neg hne12, if_pos rfl,
      if_neg hne03, if_neg hne02, if_neg hne01]
    exact lowHighMerge onValue hon
  · simp only [memUpd, if_pos rfl, if_neg hne23]
    exact lowHighMerge offValue hoff

theorem claim_C3_witness :
    (PCA9685_GetPWM conf64 (PCA9685_SetPWM conf64 bus0 3 123 4095).2
      3 77 88).2.1 = 123 :=
  (claim_C3 conf64 bus0 3 123 4095 77 88 (by omega) (by omega) (by omega)
    (fun _ => rfl)).2.2.1

theorem claim_C6_witness :
    (PCA9685_SetPWM conf64
      { mem := fun _ => 0, failAt := fun k => decide (k = 1),
        count := 0, trace := [] } 0 300 500).2.mem (setPWMReg 0 0) =
      setPWMData 300 500 0 :=
  (claim_C6 conf64
    { mem := fun _ => 0, failAt := fun k => decide (k = 1),
      count := 0, trace := [] } 0 300 500 1 (by omega) (by omega) (by omega)
    (by omega) (fun _ => rfl)).2.2 0 (by omega)

theorem claim_C10_witness :
    (PCA9685_GetPWM conf64
      { mem := fun r => 10 + r, failAt := fun k => decide (k = 2),
        count := 0, trace := [] } 2 111 222).2.2.1 = 222 :=
  (claim_C10 conf64
    { mem := fun r => 10 + r, failAt := fun k => decide (k = 2),
      count := 0, trace := [] } 2 111 222 (by omega)
    (fun _ => rfl)).2.2.1

end PCA9685
